import Mathlib

/-!
Shallow embedding of the gcopy desktop clipboard-sync core: the clipboard
reader (desktop/src-tauri/src/clipboard.rs), the sync engine
(desktop/src-tauri/src/sync.rs), both given in docs/desktop-app-design.md,
and the Dexie history store (desktop/src/models/db.ts), together with
theorems about their behaviour.
-/

namespace GCopy

/-- Clipboard content model, from `enum ClipboardContent` in clipboard.rs:
text, PNG image bytes, or a list of file paths. Bytes are modelled as `Nat`. -/
inductive ClipboardContent where
  | Text (s : String)
  | Image (png : List Nat)
  | File (paths : List String)
deriving DecidableEq

/-- A snapshot of the native clipboard, as seen through the three accessors
used by clipboard.rs: `get_files`, `get_image` (already converted to PNG
bytes) and `get_text`. A `none` field means that accessor returns `Err`
(no such representation present). -/
structure SimClipboard where
  files : Option (List String)
  image : Option (List Nat)
  text : Option String
deriving DecidableEq

/-- `read_clipboard` from clipboard.rs: tries the file list first, then the
image, then the text, returning the first representation present; when none
is present it returns the error string from the source. -/
def read_clipboard (c : SimClipboard) : Except String ClipboardContent :=
  match c.files with
  | some fs => Except.ok (ClipboardContent.File fs)
  | none =>
    match c.image with
    | some png => Except.ok (ClipboardContent.Image png)
    | none =>
      match c.text with
      | some t => Except.ok (ClipboardContent.Text t)
      | none => Except.error ("Clipboard is empty or unsupported format")

/-- Sync state, from `struct SyncState` in sync.rs. The `u64` atomics become
`Nat` (no arithmetic is performed on them, so no overflow is possible). -/
structure SyncSt where
  autoSyncEnabled : Bool
  lastLocalIndex : Nat
  lastServerIndex : Nat
  isSyncing : Bool
deriving DecidableEq

/-- Sync events. `Pulled` and `Pushed` are the variants of `enum SyncEvent`
in sync.rs; `Error` is the error event of the spec's outward event stream
(the command wrapper that emits it is not among the sources). -/
inductive SyncEvent where
  | Pulled
  | Pushed
  | Error (msg : String)
deriving DecidableEq

/-- A pull response from the remote endpoint. `status` is the HTTP status;
`xIndex` is the value of the `x-index` header after `to_str` and `u64`
parsing (`none` = header absent, unreadable, or unparseable); `xType` is the
`x-type` header after `to_str` (`none` = absent or unreadable); `body` is
the raw payload bytes. -/
structure PullResponse where
  status : Nat
  xIndex : Option Nat
  xType : Option String
  body : List Nat
deriving DecidableEq

/-- `StatusCode::is_success` from the HTTP client: 2xx. -/
def isSuccessStatus (n : Nat) : Bool :=
  decide (200 ≤ n) && decide (n ≤ 299)

/-- Stand-in for `String::from_utf8_lossy`: the exact byte decoding is never
inspected by any property here, so bytes are mapped to characters directly. -/
def utf8Lossy (data : List Nat) : String :=
  String.mk (data.map Char.ofNat)

/-- What one call to `SyncEngine::pull` produces: the updated sync state, the
clipboard writes it performed via `write_clipboard`, the sync events it
emitted, and its `Result` value. -/
structure PullResult where
  state : SyncSt
  writes : List ClipboardContent
  events : List SyncEvent
  ret : Except String Unit

/-- `SyncEngine::pull` from sync.rs, with the HTTP response passed as a
parameter (the request carries the current `last_server_index`). A 304
returns at once; a non-2xx returns the error string; otherwise the `x-index`
header defaults to 0 via `unwrap_or(0)`, the `x-type` header defaults to
"text", and the body is applied for "text" and "screenshot". The "file" arm
(a TODO in the source) and the unknown-type arm both return `Ok` before the
clipboard write, the index store and the event emit. `write_clipboard` is
modelled as succeeding (its failure path returns early with `Err`). -/
def pull (s : SyncSt) (resp : PullResponse) : PullResult :=
  if resp.status = 304 then
    ⟨s, [], [], Except.ok ()⟩
  else if isSuccessStatus resp.status = false then
    ⟨s, [], [], Except.error ("Server error: " ++ toString resp.status)⟩
  else
    let newIndex := resp.xIndex.getD 0
    let contentType := resp.xType.getD ("text")
    if contentType = "text" then
      ⟨{ s with lastServerIndex := newIndex },
       [ClipboardContent.Text (utf8Lossy resp.body)], [SyncEvent.Pulled],
       Except.ok ()⟩
    else if contentType = "screenshot" then
      ⟨{ s with lastServerIndex := newIndex },
       [ClipboardContent.Image resp.body], [SyncEvent.Pulled],
       Except.ok ()⟩
    else
      ⟨s, [], [], Except.ok ()⟩

/-- One iteration of the periodic loop in `SyncEngine::start` (sync.rs): skip
when auto-sync is disabled; skip when `is_syncing.swap(true)` returns `true`
(a cycle is already in flight, and the swap leaves the flag set as it was);
otherwise run `pull` and store `false` back into the flag. The second
component counts the pull cycles executed by this trigger. -/
def tick (s : SyncSt) (resp : PullResponse) : SyncSt × Nat :=
  if s.autoSyncEnabled = false then (s, 0)
  else if s.isSyncing then (s, 0)
  else
    let r := pull { s with isSyncing := true } resp
    ({ r.state with isSyncing := false }, 1)

/-- Modelled from the spec: the manual `syncNow` trigger (its Tauri command
is not among the sources; the tray and frontend only invoke it). Per the
spec it bypasses the `autoSyncEnabled` check but still respects the
`inFlight` mutual exclusion, running one cycle exactly as a tick does. -/
def syncNow (s : SyncSt) (resp : PullResponse) : SyncSt × Nat :=
  if s.isSyncing then (s, 0)
  else
    let r := pull { s with isSyncing := true } resp
    ({ r.state with isSyncing := false }, 1)

/-- The atomic `is_syncing.swap(true, SeqCst)`: sets the flag and returns its
previous value. -/
def acquireInFlight (s : SyncSt) : SyncSt × Bool :=
  ({ s with isSyncing := true }, s.isSyncing)

/-- The spec scenario of two triggers issued before the first completes:
the first trigger performs its test-and-set; the second trigger runs in
full against the in-flight state; then the first finishes its cycle and
releases the flag. Returns the final state and how many pull cycles were
executed in total. -/
def doubleTriggerRun (s : SyncSt) (r1 r2 : PullResponse) : SyncSt × Nat :=
  let a := acquireInFlight s
  if a.2 then syncNow a.1 r2
  else
    let n2 := (syncNow a.1 r2).2
    let r := pull a.1 r1
    ({ r.state with isSyncing := false }, n2 + 1)

/-- A push response: HTTP status and the parsed `x-index` header (`none` =
absent, unreadable, or unparseable as `u64`). -/
structure PushResponse where
  status : Nat
  xIndex : Option Nat
deriving DecidableEq

/-- The request a push sends: the `X-Type` header, the optional `X-FileName`
header, and the body bytes. -/
structure SentRequest where
  xType : String
  fileName : Option String
  body : List Nat
deriving DecidableEq

/-- What one call to `SyncEngine::push` produces: the updated sync state, the
request it sent (if it sent one), the events it emitted, and its `Result`. -/
structure PushResult where
  state : SyncSt
  request : Option SentRequest
  events : List SyncEvent
  ret : Except String Unit

/-- Stand-in for `str::as_bytes` on the text payload; the exact encoding is
never inspected by any property here. -/
def textBytes (t : String) : List Nat :=
  t.data.map Char.toNat

/-- Stand-in for `Path::file_name().and_then(to_str)`: the final component of
the path (the percent-encoding applied to the header value is omitted; the
value is never inspected by any property here). -/
def fileNameOf (p : String) : Option String :=
  (p.splitOn ("/")).getLast?

/-- The send-and-handle-response tail of `SyncEngine::push`: a non-2xx
response returns the error string with the state untouched; on a 2xx the
`last_local_index` is stored only when the `x-index` header parses, and
`Pushed` is emitted. -/
def sendPush (s : SyncSt) (req : SentRequest) (resp : PushResponse) : PushResult :=
  if isSuccessStatus resp.status = false then
    ⟨s, some req, [], Except.error ("Server error: " ++ toString resp.status)⟩
  else
    ⟨{ s with lastLocalIndex := resp.xIndex.getD s.lastLocalIndex },
     some req, [SyncEvent.Pushed], Except.ok ()⟩

/-- `SyncEngine::push` from sync.rs, with the HTTP response and the
filesystem read passed as parameters. Text and image payloads always send;
a file payload sends the bytes of its first path (an empty path list returns
`Ok` without sending, a failing read returns its error without sending). -/
def push (fileRead : String → Except String (List Nat)) (s : SyncSt)
    (c : ClipboardContent) (resp : PushResponse) : PushResult :=
  match c with
  | ClipboardContent.Text t => sendPush s ⟨"text", none, textBytes t⟩ resp
  | ClipboardContent.Image img => sendPush s ⟨"screenshot", none, img⟩ resp
  | ClipboardContent.File paths =>
    match paths with
    | [] => ⟨s, none, [], Except.ok ()⟩
    | p :: _ =>
      match fileRead p with
      | Except.error e => ⟨s, none, [], Except.error e⟩
      | Except.ok d => sendPush s ⟨"file", fileNameOf p, d⟩ resp

/-- Modelled from the spec: the command wrapper around `push` (not among the
sources) surfaces an `Err` result as an `Error` sync event carrying the
message; an `Ok` result adds nothing. -/
def pushEvents (r : PushResult) : List SyncEvent :=
  match r.ret with
  | Except.ok _ => r.events
  | Except.error m => r.events ++ [SyncEvent.Error m]

/-- Payload of a history row: a string for text rows, bytes for screenshot
rows (`data: string | ArrayBuffer` in db.ts). -/
inductive ItemPayload where
  | str (s : String)
  | buf (bytes : List Nat)
deriving DecidableEq

/-- A row of the Dexie `history` table (desktop/src/models/db.ts), with its
auto-incremented primary key `id` already assigned. -/
structure HistoryItem where
  id : Nat
  type : String
  data : ItemPayload
  dataType : Option String
  fileName : Option String
  createdAt : Nat
  pinned : Bool
deriving DecidableEq

/-- An item to append, before the store assigns its `id`
(`Omit<HistoryItem, 'id'>` in db.ts). -/
structure NewItem where
  type : String
  data : ItemPayload
  dataType : Option String
  fileName : Option String
  createdAt : Nat
  pinned : Bool
deriving DecidableEq

/-- Attach the key the store assigns on `add`. -/
def NewItem.withId (it : NewItem) (i : Nat) : HistoryItem :=
  ⟨i, it.type, it.data, it.dataType, it.fileName, it.createdAt, it.pinned⟩

/-- The `history` table: rows kept in primary-key order (the order IndexedDB
iterates them in), plus the `++id` auto-increment key generator. IndexedDB
key generators start at 1 and never reuse keys. -/
structure Store where
  entries : List HistoryItem
  nextId : Nat
deriving DecidableEq

/-- A freshly opened table. -/
def emptyStore : Store := ⟨[], 1⟩

/-- The IndexedDB key under which a stored `pinned` value is indexed.
IndexedDB keys are numbers, dates, strings, binary data or arrays; a
JavaScript boolean is not a valid key, and a row whose indexed property
holds an invalid key is omitted from that index. The program only ever
stores booleans in `pinned` (`pinned: false` on append,
`pinned: !item.pinned` in togglePin), so the extraction never yields a
key. -/
def pinnedIndexKey (_ : Bool) : Option Nat := none

/-- `where('pinned').equals(0)` from db.ts: the rows of the 'pinned' index
under key 0, in primary-key order. Because the stored `pinned` values are
booleans, no row is ever in that index (see `pinnedIndexKey`) and the query
matches nothing. -/
def wherePinnedEquals0 (l : List HistoryItem) : List HistoryItem :=
  l.filter (fun e => pinnedIndexKey e.pinned == some 0)

/-- The comparison `Collection.sortBy('createdAt')` sorts by. -/
def byCreatedAt (a b : HistoryItem) : Prop :=
  a.createdAt ≤ b.createdAt

instance : DecidableRel byCreatedAt := fun a b =>
  inferInstanceAs (Decidable (a.createdAt ≤ b.createdAt))

/-- Dexie `Collection.sortBy('createdAt')`: a stable sort of the collection
by the key (JavaScript array sort is stable). -/
def sortByCreatedAt (l : List HistoryItem) : List HistoryItem :=
  List.insertionSort byCreatedAt l

/-- `addHistoryItem` from db.ts: count the rows matched by
`where('pinned').equals(0)`; when that count is at least 50, sort the
matched rows by `createdAt` and delete the row with the key of the first
one (the `oldest[0].id` truthiness test of the source becomes an `id ≠ 0`
test); then `add` the item under the next auto-increment key, returning
that key. Because the matched set is always empty (see `pinnedIndexKey`),
the count is always 0, the eviction branch is dead code, and every call
plainly appends. -/
def addHistoryItem (s : Store) (it : NewItem) : Store × Nat :=
  let unpinnedCount := (wherePinnedEquals0 s.entries).length
  let s1 :=
    if 50 ≤ unpinnedCount then
      match (sortByCreatedAt (wherePinnedEquals0 s.entries)).head? with
      | some o =>
        if o.id ≠ 0 then
          { entries := s.entries.filter (fun e => e.id != o.id), nextId := s.nextId }
        else s
      | none => s
    else s
  ({ entries := s1.entries ++ [it.withId s.nextId], nextId := s.nextId + 1 }, s.nextId)

/-- The store after a sequence of `addHistoryItem` calls. -/
def appendAll (s : Store) (l : List NewItem) : Store :=
  l.foldl (fun st it => (addHistoryItem st it).1) s

/-- Fifty-one distinct unpinned text items with increasing timestamps: the
spec scenario that is supposed to trigger one eviction. -/
def c1FailingItems : List NewItem :=
  (List.range 51).map (fun i => ⟨"text", ItemPayload.str ("x"), none, none, i, false⟩)

/-- `deleteHistoryItem` from db.ts: delete by primary key. -/
def deleteHistoryItem (s : Store) (i : Nat) : Store :=
  { entries := s.entries.filter (fun e => e.id != i), nextId := s.nextId }

/-- `togglePin` from db.ts: flip `pinned` on the row with the given key, if
present. -/
def togglePin (s : Store) (i : Nat) : Store :=
  { entries := s.entries.map (fun e => if e.id = i then { e with pinned := !e.pinned } else e),
    nextId := s.nextId }

/-- The IndexedDB `createdAt` index order: ascending `createdAt`, rows with
equal `createdAt` by ascending primary key. -/
def indexLe (a b : HistoryItem) : Prop :=
  a.createdAt < b.createdAt ∨ (a.createdAt = b.createdAt ∧ a.id ≤ b.id)

instance : DecidableRel indexLe := fun a b =>
  inferInstanceAs (Decidable
    (a.createdAt < b.createdAt ∨ (a.createdAt = b.createdAt ∧ a.id ≤ b.id)))

instance : IsTotal HistoryItem indexLe :=
  ⟨by
    intro a b
    unfold indexLe
    omega⟩

instance : IsTrans HistoryItem indexLe :=
  ⟨by
    intro a b c hab hbc
    unfold indexLe at hab hbc ⊢
    omega⟩

/-- `getHistory` from db.ts: `orderBy('createdAt').reverse().toArray()` —
the rows in `createdAt` index order, reversed. -/
def getHistory (s : Store) : List HistoryItem :=
  (List.insertionSort indexLe s.entries).reverse

/-- Well-formedness of the table as Dexie maintains it: rows are in strictly
increasing primary-key order, every key is positive, every key is below the
auto-increment counter, and the counter is positive. -/
def WFStore (s : Store) : Prop :=
  s.entries.Pairwise (fun a b => a.id < b.id)
  ∧ (∀ e ∈ s.entries, 0 < e.id ∧ e.id < s.nextId)
  ∧ 0 < s.nextId

/-- The frontend reaction to one `clipboard-changed` event
(SyncClipboard.tsx): a text payload is appended as a `text` row, an image
payload as a `screenshot` row with `dataType: image/png`; nothing else is
appended. -/
def ingestClipboardChange (hs : Store) (now : Nat) : ClipboardContent → Store
  | ClipboardContent.Text t =>
    (addHistoryItem hs ⟨"text", ItemPayload.str t, none, none, now, false⟩).1
  | ClipboardContent.Image b =>
    (addHistoryItem hs ⟨"screenshot", ItemPayload.buf b, some ("image/png"), none, now, false⟩).1
  | ClipboardContent.File _ => hs

/-- The history store after the monitor/frontend pathway has ingested every
clipboard write a pull performed (each such write re-enters through the
`clipboard-changed` event). -/
def historyAfterPull (hs : Store) (now : Nat) (r : PullResult) : Store :=
  r.writes.foldl (fun h c => ingestClipboardChange h now c) hs

/-- C2: the claim states that the engine updates `lastServerIndex` only when
the pulled index exceeds the current value; the code stores the pulled index
unconditionally. At the failing input — a pull answered with index 5
followed by one answered with index 3 — the engine regresses
`lastServerIndex` from 5 back to 3. -/
theorem pull_regresses_lastServerIndex :
    (pull ⟨true, 0, 0, false⟩ ⟨200, some 5, some ("text"), []⟩).state.lastServerIndex = 5
    ∧ (pull (pull ⟨true, 0, 0, false⟩ ⟨200, some 5, some ("text"), []⟩).state
        ⟨200, some 3, some ("text"), []⟩).state.lastServerIndex = 3 := by
  constructor <;> rfl

/-- C3: `read_clipboard` uses the fixed priority order file list, then
image, then text: it returns the first representation present (in
particular a clipboard holding both a file list and text yields the file
list, never the text), and errors when none of the three is present. -/
theorem read_clipboard_priority (c : SimClipboard) :
    (∀ fs, c.files = some fs → read_clipboard c = Except.ok (ClipboardContent.File fs))
    ∧ (c.files = none → ∀ b, c.image = some b →
        read_clipboard c = Except.ok (ClipboardContent.Image b))
    ∧ (c.files = none → c.image = none → ∀ t, c.text = some t →
        read_clipboard c = Except.ok (ClipboardContent.Text t))
    ∧ (c.files = none → c.image = none → c.text = none →
        read_clipboard c = Except.error ("Clipboard is empty or unsupported format"))
    ∧ (∀ fs t, c.files = some fs → c.text = some t →
        read_clipboard c ≠ Except.ok (ClipboardContent.Text t)) := by
  refine ⟨fun fs hf => ?_, fun hf b hb => ?_, fun hf hb t ht => ?_,
    fun hf hb ht => ?_, fun fs t hf ht => ?_⟩
  · simp [read_clipboard, hf]
  · simp [read_clipboard, hf, hb]
  · simp [read_clipboard, hf, hb, ht]
  · simp [read_clipboard, hf, hb, ht]
  · simp [read_clipboard, hf]

/-- C3 witness: a clipboard holding both a file list and text yields the
file list; an empty clipboard yields the error. -/
theorem read_clipboard_priority_witness :
    read_clipboard ⟨some (["a.txt"]), none, some ("hello")⟩
      = Except.ok (ClipboardContent.File (["a.txt"]))
    ∧ read_clipboard ⟨none, none, none⟩
      = Except.error ("Clipboard is empty or unsupported format") :=
  ⟨(read_clipboard_priority ⟨some (["a.txt"]), none, some ("hello")⟩).1 (["a.txt"]) rfl,
   (read_clipboard_priority ⟨none, none, none⟩).2.2.2.1 rfl rfl rfl⟩

/-- C4: at most one sync cycle is in flight: a tick or a manual trigger
that finds the in-flight flag set performs no pull and leaves the whole
sync state unchanged, and two triggers issued before the first completes
execute exactly one pull cycle. -/
theorem sync_mutual_exclusion (s : SyncSt) (r r2 : PullResponse) :
    (s.isSyncing = true → tick s r = (s, 0) ∧ syncNow s r = (s, 0))
    ∧ (s.isSyncing = false → (doubleTriggerRun s r r2).2 = 1) := by
  constructor
  · intro h
    constructor
    · unfold tick
      rcases hA : s.autoSyncEnabled with _ | _ <;> simp [hA, h]
    · simp [syncNow, h]
  · intro h
    simp [doubleTriggerRun, acquireInFlight, h, syncNow]

/-- C4 witness: with the flag set, a tick and a manual trigger are no-ops;
from an idle state, a double trigger runs exactly one cycle. -/
theorem sync_mutual_exclusion_witness :
    (tick ⟨true, 0, 0, true⟩ ⟨304, none, none, []⟩ = (⟨true, 0, 0, true⟩, 0)
      ∧ syncNow ⟨true, 0, 0, true⟩ ⟨304, none, none, []⟩ = (⟨true, 0, 0, true⟩, 0))
    ∧ (doubleTriggerRun ⟨true, 0, 0, false⟩ ⟨304, none, none, []⟩ ⟨304, none, none, []⟩).2 = 1 :=
  ⟨(sync_mutual_exclusion ⟨true, 0, 0, true⟩ ⟨304, none, none, []⟩ ⟨304, none, none, []⟩).1 rfl,
   (sync_mutual_exclusion ⟨true, 0, 0, false⟩ ⟨304, none, none, []⟩ ⟨304, none, none, []⟩).2 rfl⟩

/-- C5 counterexample: a 200 response with `X-Type: file` and `X-Index: 7`
against a state whose `lastServerIndex` is 2 leaves `lastServerIndex` at 2:
the file payload is not acknowledged, contrary to the claim that the index
advances to the carried value. -/
theorem pull_file_no_ack_counterexample :
    (pull ⟨true, 0, 2, false⟩ ⟨200, some 7, some ("file"), []⟩).state.lastServerIndex = 2
    ∧ (pull ⟨true, 0, 2, false⟩ ⟨200, some 7, some ("file"), []⟩).state.lastServerIndex ≠ 7 := by
  constructor <;> decide

/-- C5 amended: a pull whose 2xx response declares `X-Type: file` performs
no clipboard write and applies no content, and does NOT advance
`lastServerIndex` — the `"file"` arm returns `Ok` before the clipboard
write, the index store and the event emit, so the whole pull is a
successful no-op. -/
theorem pull_file_noop (s : SyncSt) (resp : PullResponse)
    (h2 : isSuccessStatus resp.status = true) (ht : resp.xType = some ("file")) :
    pull s resp = ⟨s, [], [], Except.ok ()⟩ := by
  have h304 : ¬ resp.status = 304 := by
    intro e
    rw [e] at h2
    simp [isSuccessStatus] at h2
  simp [pull, h304, h2, ht]

/-- C5 witness: the amended statement at the counterexample's input. -/
theorem pull_file_noop_witness :
    isSuccessStatus 200 = true
    ∧ pull ⟨true, 0, 2, false⟩ ⟨200, some 7, some ("file"), []⟩
        = ⟨⟨true, 0, 2, false⟩, [], [], Except.ok ()⟩ :=
  ⟨rfl, pull_file_noop ⟨true, 0, 2, false⟩ ⟨200, some 7, some ("file"), []⟩ rfl rfl⟩

/-- C6: a pull answered with HTTP 304 is a no-op: the sync state (in
particular `lastServerIndex`) is unchanged, no clipboard write happens, no
event (in particular no `Pulled`) is emitted, the call returns `Ok`, and
consequently the history store — which a pull reaches only through the
clipboard writes it performs — is unchanged. -/
theorem pull_304_noop (s : SyncSt) (hs : Store) (now : Nat) (resp : PullResponse)
    (h : resp.status = 304) :
    pull s resp = ⟨s, [], [], Except.ok ()⟩
    ∧ historyAfterPull hs now (pull s resp) = hs := by
  have hp : pull s resp = ⟨s, [], [], Except.ok ()⟩ := by simp [pull, h]
  exact ⟨hp, by simp [historyAfterPull, hp]⟩

/-- C6 witness: the 304 no-op at a concrete state and response. -/
theorem pull_304_noop_witness :
    (304 : Nat) = 304
    ∧ (pull ⟨true, 1, 9, false⟩ ⟨304, some 3, some ("text"), [1]⟩
        = ⟨⟨true, 1, 9, false⟩, [], [], Except.ok ()⟩
      ∧ historyAfterPull emptyStore 5 (pull ⟨true, 1, 9, false⟩ ⟨304, some 3, some ("text"), [1]⟩)
        = emptyStore) :=
  ⟨rfl, pull_304_noop ⟨true, 1, 9, false⟩ emptyStore 5 ⟨304, some 3, some ("text"), [1]⟩ rfl⟩

/-- C7: a push whose request was actually sent and answered non-2xx leaves
the state (in particular `lastLocalIndex`) unchanged and is surfaced as a
single `Error` event whose message carries the status — and nothing else
happens, there is no automatic retry; answered 2xx, it stores the
response's parsed `X-Index` into `lastLocalIndex` and emits `Pushed`. -/
theorem push_response_handling (fileRead : String → Except String (List Nat))
    (s : SyncSt) (c : ClipboardContent) (resp : PushResponse)
    (hsent : (push fileRead s c resp).request.isSome = true) :
    (isSuccessStatus resp.status = false →
      (push fileRead s c resp).state = s
      ∧ pushEvents (push fileRead s c resp)
          = [SyncEvent.Error ("Server error: " ++ toString resp.status)])
    ∧ (isSuccessStatus resp.status = true →
      (∀ i, resp.xIndex = some i → (push fileRead s c resp).state.lastLocalIndex = i)
      ∧ pushEvents (push fileRead s c resp) = [SyncEvent.Pushed]) := by
  obtain ⟨req, hreq⟩ : ∃ req, push fileRead s c resp = sendPush s req resp := by
    cases c with
    | Text t => exact ⟨_, rfl⟩
    | Image img => exact ⟨_, rfl⟩
    | File paths =>
      cases paths with
      | nil => simp [push] at hsent
      | cons p ps =>
        cases hfr : fileRead p with
        | error e => simp [push, hfr] at hsent
        | ok d => exact ⟨⟨"file", fileNameOf p, d⟩, by simp [push, hfr]⟩
  rw [hreq]
  constructor
  · intro hf
    simp [sendPush, hf, pushEvents]
  · intro htr
    refine ⟨fun i hi => ?_, ?_⟩
    · simp [sendPush, htr, hi]
    · simp [sendPush, htr, pushEvents]

/-- C7 witness: pushing text answered 500 leaves the state untouched and
yields the error event; answered 201 with index 9, it stores 9 and yields
`Pushed`. -/
theorem push_response_handling_witness :
    ((push (fun _ => Except.error ("no fs")) ⟨true, 4, 0, false⟩
        (ClipboardContent.Text ("hello")) ⟨500, none⟩).state = ⟨true, 4, 0, false⟩
      ∧ pushEvents (push (fun _ => Except.error ("no fs")) ⟨true, 4, 0, false⟩
          (ClipboardContent.Text ("hello")) ⟨500, none⟩)
        = [SyncEvent.Error ("Server error: " ++ toString (500 : Nat))])
    ∧ ((push (fun _ => Except.error ("no fs")) ⟨true, 4, 0, false⟩
        (ClipboardContent.Text ("hello")) ⟨201, some 9⟩).state.lastLocalIndex = 9
      ∧ pushEvents (push (fun _ => Except.error ("no fs")) ⟨true, 4, 0, false⟩
          (ClipboardContent.Text ("hello")) ⟨201, some 9⟩) = [SyncEvent.Pushed]) :=
  ⟨(push_response_handling (fun _ => Except.error ("no fs")) ⟨true, 4, 0, false⟩
      (ClipboardContent.Text ("hello")) ⟨500, none⟩ rfl).1 rfl,
   ⟨((push_response_handling (fun _ => Except.error ("no fs")) ⟨true, 4, 0, false⟩
      (ClipboardContent.Text ("hello")) ⟨201, some 9⟩ rfl).2 rfl).1 9 rfl,
    ((push_response_handling (fun _ => Except.error ("no fs")) ⟨true, 4, 0, false⟩
      (ClipboardContent.Text ("hello")) ⟨201, some 9⟩ rfl).2 rfl).2⟩⟩

/-- C9 counterexample: a 200 response with no parseable `X-Index` but with
`X-Type: file` leaves `lastServerIndex` at its previous value 5 — the claim
that it is reset to 0 regardless of its previous value fails, because the
`"file"` arm returns before the store. -/
theorem pull_missing_index_counterexample :
    (pull ⟨true, 0, 5, false⟩ ⟨200, none, some ("file"), []⟩).state.lastServerIndex = 5
    ∧ (pull ⟨true, 0, 5, false⟩ ⟨200, none, some ("file"), []⟩).state.lastServerIndex ≠ 0 := by
  constructor <;> decide

/-- C9 amended: when the 2xx response's `X-Index` header is absent or not
parseable as a `u64` AND the declared type is one the pull applies
("text", "screenshot", or an absent `X-Type`, which defaults to "text"),
`unwrap_or(0)` makes the engine store 0 into `lastServerIndex`, whatever
its previous value. -/
theorem pull_missing_index_zero (s : SyncSt) (resp : PullResponse)
    (h2 : isSuccessStatus resp.status = true) (hidx : resp.xIndex = none)
    (ht : resp.xType.getD ("text") = "text" ∨ resp.xType.getD ("text") = "screenshot") :
    (pull s resp).state.lastServerIndex = 0 := by
  have h304 : ¬ resp.status = 304 := by
    intro e
    rw [e] at h2
    simp [isSuccessStatus] at h2
  rcases ht with ht | ht <;> simp [pull, h304, h2, hidx, ht]

/-- C9 witness: the amended statement at a concrete input. -/
theorem pull_missing_index_zero_witness :
    isSuccessStatus 200 = true
    ∧ (pull ⟨true, 0, 5, false⟩ ⟨200, none, some ("text"), []⟩).state.lastServerIndex = 0 :=
  ⟨rfl, pull_missing_index_zero ⟨true, 0, 5, false⟩ ⟨200, none, some ("text"), []⟩
    rfl rfl (Or.inl rfl)⟩

/-- C10: a 2xx pull response declaring an `X-Type` other than "text",
"screenshot" and "file" completes as a successful no-op: no clipboard
write, sync state (in particular `lastServerIndex`) unchanged, no event. -/
theorem pull_unknown_type_noop (s : SyncSt) (resp : PullResponse) (t : String)
    (h2 : isSuccessStatus resp.status = true) (ht : resp.xType = some t)
    (h1 : t ≠ "text") (hsc : t ≠ "screenshot") (_hfl : t ≠ "file") :
    pull s resp = ⟨s, [], [], Except.ok ()⟩ := by
  have h304 : ¬ resp.status = 304 := by
    intro e
    rw [e] at h2
    simp [isSuccessStatus] at h2
  simp [pull, h304, h2, ht, h1, hsc]

set_option maxRecDepth 40000 in
/-- C1: the claim states that after each append the unpinned count is at
most 50, with the single oldest unpinned row deleted when the count is at
the cap. The code stores `pinned` as a JavaScript boolean, booleans are not
valid IndexedDB keys, so `where('pinned').equals(0)` matches no rows, the
counted value is always 0 and the eviction branch never fires. At the
failing input — 51 appends of distinct unpinned items on an empty store —
51 unpinned rows remain (the cap is violated) and the row with the
earliest timestamp is still present (nothing was evicted). -/
theorem addHistoryItem_cap_violation :
    ((appendAll emptyStore c1FailingItems).entries.filter
        (fun e => !e.pinned)).length = 51
    ∧ ((appendAll emptyStore c1FailingItems).entries.filter
        (fun e => e.createdAt == 0)).length = 1 := by
  constructor <;> rfl

/-- C10 witness: an unknown type at a concrete input. -/
theorem pull_unknown_type_noop_witness :
    isSuccessStatus 200 = true
    ∧ pull ⟨true, 0, 4, false⟩ ⟨200, some 8, some ("bogus"), [7]⟩
        = ⟨⟨true, 0, 4, false⟩, [], [], Except.ok ()⟩ :=
  ⟨rfl, pull_unknown_type_noop ⟨true, 0, 4, false⟩ ⟨200, some 8, some ("bogus"), [7]⟩
    ("bogus") rfl rfl (by decide) (by decide) (by decide)⟩

/-- C8: `getHistory` returns exactly the rows of the store (a permutation),
ordered by `createdAt` descending with ties between equal `createdAt`
broken by descending `id`: every earlier row of the result is strictly
later than — or same-time with strictly larger `id` than — every later
row. -/
theorem getHistory_order (s : Store) (hwf : WFStore s) :
    (getHistory s).Perm s.entries
    ∧ (getHistory s).Pairwise
        (fun a b => b.createdAt < a.createdAt
          ∨ (b.createdAt = a.createdAt ∧ b.id < a.id)) := by
  obtain ⟨hpw, -, -⟩ := hwf
  have hperm : (getHistory s).Perm s.entries :=
    (List.reverse_perm _).trans (List.perm_insertionSort indexLe s.entries)
  have hsorted : (List.insertionSort indexLe s.entries).Pairwise indexLe :=
    List.sorted_insertionSort indexLe s.entries
  have hrev : (getHistory s).Pairwise (fun a b => indexLe b a) := by
    unfold getHistory
    exact (List.pairwise_reverse).mpr hsorted
  have hne : (getHistory s).Pairwise (fun a b => a.id ≠ b.id) := by
    have h1 : s.entries.Pairwise (fun a b => a.id ≠ b.id) :=
      hpw.imp (fun h => Nat.ne_of_lt h)
    exact (hperm.pairwise_iff (fun h => Ne.symm h)).mpr h1
  refine ⟨hperm, ?_⟩
  refine (hrev.and hne).imp ?_
  intro a b h
  obtain ⟨h1, h2⟩ := h
  unfold indexLe at h1
  omega

/-- A concrete two-row store used by the witnesses. -/
def wStore : Store :=
  ⟨[⟨1, "text", ItemPayload.str ("a"), none, none, 10, false⟩,
    ⟨2, "text", ItemPayload.str ("b"), none, none, 5, true⟩], 3⟩

/-- C8 witness: the ordering statement at the concrete two-row store. -/
theorem getHistory_order_witness :
    WFStore wStore
    ∧ ((getHistory wStore).Perm wStore.entries
      ∧ (getHistory wStore).Pairwise
          (fun a b => b.createdAt < a.createdAt
            ∨ (b.createdAt = a.createdAt ∧ b.id < a.id))) :=
  ⟨⟨by simp [wStore], by simp [wStore], by simp [wStore]⟩,
   getHistory_order wStore ⟨by simp [wStore], by simp [wStore], by simp [wStore]⟩⟩

end GCopy
